import Mathlib

/-!
Shallow embedding of the chat and converter components of the
ChatBot-with-PDF-to-Audio-Converter repository.

The chat view (`src/components/Chat.jsx`) keeps a draft input string and a
transcript of messages; `handleSendMessage` appends a user message and
schedules a delayed bot reply via `setTimeout`.  The converter view
(`Converter.jsx`) keeps a selected file, a status string, a converting flag
and an audio-result reference; `handleConvert` simulates the backend call
and always succeeds with a fixed demo audio URL.

State is modelled as records; the delayed bot reply is modelled by a FIFO
list of pending callbacks, each carrying the transcript length captured by
the closure at scheduling time (the `messages.length` seen inside the
`setTimeout` body).
-/

/-- Origin of a transcript entry: the `sender` field, `"user"` or `"bot"`
in `Chat.jsx`. -/
inductive Sender where
  | user
  | bot
deriving DecidableEq, Repr

/-- One transcript entry: `{ id, text, sender }` in `Chat.jsx`. -/
structure Msg where
  id : Nat
  text : String
  sender : Sender
deriving DecidableEq, Repr

/-- State of the chat component: the draft input (`message` useState), the
transcript (`messages` useState), and the queue of scheduled `setTimeout`
bot-reply callbacks.  Each pending entry records the value of
`messages.length` captured by the callback closure when it was scheduled. -/
structure ChatState where
  message : String
  messages : List Msg
  pending : List Nat
deriving DecidableEq, Repr

/-- The hard-coded greeting placed in the transcript at construction
(`Chat.jsx` line 20). -/
def greetingMsg : Msg :=
  { id := 1, text := "Hello! How can I assist you today?", sender := .bot }

/-- Initial chat state: empty draft, the two hard-coded placeholder
messages (`Chat.jsx` lines 19-22), no pending timer. -/
def initChatState : ChatState :=
  { message := ""
    messages := [greetingMsg, { id := 2, text := "Hi!", sender := .user }]
    pending := [] }

/-- Typing into the input box: `onChange` calls `setMessage` with the new
value (`Chat.jsx` line 107). -/
def setDraft (t : String) (s : ChatState) : ChatState :=
  { s with message := t }

/-- JavaScript `String.prototype.trim`, modelled over the character list:
removes leading and trailing whitespace.  (Defined directly so that it is
kernel-computable on concrete strings.) -/
def jsTrim (s : String) : String :=
  String.mk (((s.data.dropWhile Char.isWhitespace).reverse.dropWhile
    Char.isWhitespace).reverse)

/-- The send button is disabled exactly when `!message.trim()` is truthy,
i.e. when the draft trims to the empty string (`Chat.jsx` line 117). -/
def sendButtonDisabled (s : ChatState) : Bool :=
  jsTrim s.message == ""

/-- The constant bot reply text hard-coded in the `setTimeout` body
(`Chat.jsx` line 38). -/
def demoReplyText : String :=
  "Thanks for your message! This is a demo response."

/-- The artificial reply delay passed to `setTimeout`
(`Chat.jsx` line 42), in milliseconds. -/
def chatReplyDelayMs : Nat := 1000

/-- The bot reply message built inside the `setTimeout` callback
(`Chat.jsx` lines 36-40): its id is `messages.length + 2` where
`messages.length` is the length captured by the closure at scheduling
time, passed here as `capturedLen`. -/
def botReplyOf (capturedLen : Nat) : Msg :=
  { id := capturedLen + 2, text := demoReplyText, sender := .bot }

/-- `handleSendMessage` (`Chat.jsx` lines 24-44): if the draft trims to a
non-empty string, append a user entry with id `messages.length + 1` and
text equal to the (untrimmed) draft, clear the draft, and schedule one
delayed bot reply whose closure captures the current `messages.length`.
Otherwise nothing happens. -/
def handleSendMessage (s : ChatState) : ChatState :=
  if jsTrim s.message ≠ "" then
    { message := ""
      messages := s.messages ++
        [{ id := s.messages.length + 1, text := s.message, sender := .user }]
      pending := s.pending ++ [s.messages.length] }
  else
    s

/-- Delivery of the oldest scheduled `setTimeout` callback: appends the bot
reply (`setMessages ((prev) => [...prev, botResponse])`, `Chat.jsx`
line 41) built from the captured length, and removes it from the queue.
All timers use the same 1000 ms delay, so they fire in FIFO order. -/
def fireTimer (s : ChatState) : ChatState :=
  match s.pending with
  | [] => s
  | n :: rest =>
      { s with messages := s.messages ++ [botReplyOf n], pending := rest }

/-- States reachable from the initial chat state through the events the
component reacts to: typing into the input, clicking send (or pressing
Enter, which calls the same handler), and a scheduled timer firing. -/
inductive ChatReachable : ChatState → Prop where
  | init : ChatReachable initChatState
  | draft (t : String) (s : ChatState) :
      ChatReachable s → ChatReachable (setDraft t s)
  | send (s : ChatState) :
      ChatReachable s → ChatReachable (handleSendMessage s)
  | timer (s : ChatState) :
      ChatReachable s → ChatReachable (fireTimer s)

/-- A selected file as the converter sees it: declared name, declared media
type (`file.type`), declared size (`Converter.jsx`). -/
structure File where
  name : String
  type : String
  size : Nat
deriving DecidableEq, Repr

/-- A provider invocation observable at the converter's asynchronous
boundary: the (simulated) backend conversion request carrying the selected
file (`handleConvert`, the `formData`/`await` block). -/
inductive ConvEvent where
  | conversionRequest (f : File)
deriving DecidableEq, Repr

/-- State of the converter component: the six `useState` hooks of
`Converter.jsx` lines 14-21. -/
structure ConverterState where
  selectedFile : Option File
  conversionStatus : String
  isConverting : Bool
  statusVariant : String
  audioUrl : Option String
  isAudioReady : Bool
deriving DecidableEq, Repr

/-- Initial converter state (`Converter.jsx` lines 14-21): no file,
status "Waiting for file upload...", not converting, info variant, no
audio result. -/
def initConverterState : ConverterState :=
  { selectedFile := none
    conversionStatus := "Waiting for file upload..."
    isConverting := false
    statusVariant := "info"
    audioUrl := none
    isAudioReady := false }

/-- The fixed demo audio URL returned by the simulated conversion
(`Converter.jsx` lines 82-83). -/
def demoAudioUrl : String :=
  "https://www.soundjay.com/misc/sounds-yoyo/beep-07a.mp3"

/-- `handleFileChange` (`Converter.jsx` lines 23-42): with a file whose
declared type is `application/pdf`, store it and report selection; with
any other declared type, clear the stored file and warn; with no file,
clear the stored file and return to the waiting status. -/
def handleFileChange (s : ConverterState) (file : Option File) : ConverterState :=
  match file with
  | some f =>
      if f.type = "application/pdf" then
        { s with selectedFile := some f
                 conversionStatus := "File selected: " ++ f.name
                 statusVariant := "success" }
      else
        { s with selectedFile := none
                 conversionStatus := "Please select a valid PDF file."
                 statusVariant := "warning" }
  | none =>
      { s with selectedFile := none
               conversionStatus := "Waiting for file upload..."
               statusVariant := "info" }

/-- The synchronous prefix of `handleConvert` (`Converter.jsx` lines
44-53), up to the suspension point at the simulated backend call: with no
selected file, set the "select a file first" warning and return without
invoking the provider; otherwise raise the converting flag, set the
converting status, and issue the conversion request.  The returned list
holds the provider invocations made. -/
def handleConvertBegin (s : ConverterState) : ConverterState × List ConvEvent :=
  match s.selectedFile with
  | none =>
      ({ s with conversionStatus := "Please select a PDF file first."
                statusVariant := "warning" }, [])
  | some f =>
      ({ s with isConverting := true
                conversionStatus := "Converting PDF to audio..."
                statusVariant := "primary" },
       [ConvEvent.conversionRequest f])

/-- The continuation of `handleConvert` after the simulated call resolves
(`Converter.jsx` lines 80-93): the demo provider always succeeds, so the
state receives the fixed demo audio URL, the audio-ready flag, the success
status, and (in the `finally` block) the converting flag is lowered. -/
def handleConvertComplete (s : ConverterState) : ConverterState :=
  { s with audioUrl := some demoAudioUrl
           isAudioReady := true
           conversionStatus := "Conversion complete! Play your audio below."
           statusVariant := "success"
           isConverting := false }

/-- The whole `handleConvert` run to completion (`Converter.jsx` lines
44-94): the early-return branch when no file is selected, otherwise the
synchronous prefix followed by the always-successful completion. -/
def handleConvert (s : ConverterState) : ConverterState × List ConvEvent :=
  let r := handleConvertBegin s
  match s.selectedFile with
  | none => r
  | some _ => (handleConvertComplete r.fst, r.snd)

/-- `handleCancel` (`Converter.jsx` lines 96-109): synchronously clears the
selected file, resets the status and variant to their initial values,
lowers the converting and audio-ready flags and drops the audio URL; it
makes no provider call. -/
def handleCancel (_s : ConverterState) : ConverterState × List ConvEvent :=
  ({ selectedFile := none
     conversionStatus := "Waiting for file upload..."
     statusVariant := "info"
     isConverting := false
     audioUrl := none
     isAudioReady := false }, [])

/-! Concrete inputs and traces used by the theorems below. -/

/-- A file whose declared media type is the accepted PDF type. -/
def pdfFile : File := { name := "doc.pdf", type := "application/pdf", size := 4096 }

/-- A file whose declared media type is not the accepted PDF type. -/
def pngFile : File := { name := "image.png", type := "image/png", size := 2048 }

/-- The overlapped-submission trace: from the initial chat state, submit
"a", then (before the reply timer for "a" fires) type and submit "b", then
let both reply timers fire in scheduling order. -/
def overlappedTrace : ChatState :=
  fireTimer (fireTimer (handleSendMessage (setDraft "b"
    (handleSendMessage (setDraft "a" initChatState)))))

/-- Appending one element on the right preserves the head of a non-empty
list. -/
theorem head_of_append_singleton {α : Type} (l : List α) (x a : α)
    (h : l.head? = some a) : (l ++ [x]).head? = some a := by
  cases l with
  | nil => simp at h
  | cons b t => simpa using h

/-- Every reachable chat state still has the hard-coded greeting as the
first transcript entry: all transitions either leave the transcript alone
or append on the right. -/
theorem chatReachable_head (s : ChatState) (hs : ChatReachable s) :
    s.messages.head? = some greetingMsg := by
  induction hs with
  | init => rfl
  | draft t s' _ ih => simpa [setDraft] using ih
  | send s' _ ih =>
      unfold handleSendMessage
      split
      · exact head_of_append_singleton _ _ _ ih
      · exact ih
  | timer s' _ ih =>
      unfold fireTimer
      cases hp : s'.pending with
      | nil => exact ih
      | cons n rest => exact head_of_append_singleton _ _ _ ih

/-- Claim C1, counterexample: after submitting "a", and while its reply is
still pending, typing "b" leaves the send control enabled and a second
submission is accepted, leaving two exchanges in flight at once — so
duplicate submissions during the window are not rejected and more than
one exchange can be in flight. -/
theorem duplicate_submit_accepted_cex :
    sendButtonDisabled (setDraft "b" (handleSendMessage (setDraft "a" initChatState))) = false ∧
    (handleSendMessage (setDraft "b" (handleSendMessage (setDraft "a" initChatState)))).pending.length = 2 := by
  decide

/-- Claim C1, amended: there is no waiting flag; whenever the draft input
is non-empty after trimming, the send control is enabled and a submission
is accepted, adding one more in-flight exchange regardless of how many
replies are already pending. -/
theorem no_waiting_guard (s : ChatState) (h : jsTrim s.message ≠ "") :
    sendButtonDisabled s = false ∧
    (handleSendMessage s).pending.length = s.pending.length + 1 := by
  constructor
  · simp [sendButtonDisabled, h]
  · simp [handleSendMessage, h]

/-- Witness for `no_waiting_guard` at a state with a non-empty draft and
one reply already pending. -/
theorem no_waiting_guard_witness :
    sendButtonDisabled { message := "b", messages := initChatState.messages, pending := [2] } = false ∧
    (handleSendMessage { message := "b", messages := initChatState.messages, pending := [2] }).pending.length = 2 :=
  no_waiting_guard { message := "b", messages := initChatState.messages, pending := [2] } (by decide)

/-- Claim C3, counterexample: submitting the draft " hi " appends a user
entry whose text is the original " hi ", not the trimmed "hi" (and the two
differ). -/
theorem submit_stores_untrimmed_cex :
    ((handleSendMessage (setDraft " hi " initChatState)).messages.map Msg.text =
      ["Hello! How can I assist you today?", "Hi!", " hi "]) ∧
    jsTrim " hi " ≠ " hi " := by
  decide

/-- Claim C3, amended: for every draft that is non-empty after trimming,
`handleSendMessage` appends one user-origin entry whose text is the
original, untrimmed draft; trimming is used only for the emptiness
check. -/
theorem submit_appends_original_text (s : ChatState) (h : jsTrim s.message ≠ "") :
    (handleSendMessage s).messages =
      s.messages ++ [{ id := s.messages.length + 1, text := s.message, sender := .user }] := by
  simp [handleSendMessage, h]

/-- Witness for `submit_appends_original_text` at the draft " hi ". -/
theorem submit_appends_original_text_witness :
    (handleSendMessage (setDraft " hi " initChatState)).messages =
      (setDraft " hi " initChatState).messages ++
        [{ id := 3, text := " hi ", sender := .user }] :=
  submit_appends_original_text (setDraft " hi " initChatState) (by decide)

/-- Claim C4: on the overlapped-submission trace the transcript ids are
1, 2, 3, 4, 4, 5 — the delayed reply to "a" reuses id 4, which the user
entry for "b" already took — so the ids are not strictly increasing.  The
claim (and the spec invariant) is violated by the code; since the view
uses the entry id as the list key, which must be unique, this is a slip in
the code (a stale closure over `messages.length`), not an intended
behavior. -/
theorem overlapped_submit_duplicate_ids :
    overlappedTrace.messages.map Msg.id = [1, 2, 3, 4, 4, 5] ∧
    ¬ List.Pairwise (· < ·) (overlappedTrace.messages.map Msg.id) := by
  decide

/-- Claim C5: from a state with no reply pending and a draft that is
non-empty after trimming, one completed submit appends exactly two
entries — the user entry followed by the assistant entry — and leaves no
pending reply.  (The demo provider cannot fail, so the failure clause of
the claim is vacuous: no execution exhibits a provider failure.) -/
theorem submit_completed_appends_two (s : ChatState)
    (hp : s.pending = []) (h : jsTrim s.message ≠ "") :
    (fireTimer (handleSendMessage s)).messages =
      s.messages ++
        [{ id := s.messages.length + 1, text := s.message, sender := .user },
         { id := s.messages.length + 2, text := demoReplyText, sender := .bot }] ∧
    (fireTimer (handleSendMessage s)).pending = [] := by
  simp [handleSendMessage, fireTimer, h, hp, botReplyOf]

/-- Witness for `submit_completed_appends_two` at the draft "Hello" from
the initial state. -/
theorem submit_completed_appends_two_witness :
    (fireTimer (handleSendMessage (setDraft "Hello" initChatState))).messages =
      (setDraft "Hello" initChatState).messages ++
        [{ id := 3, text := "Hello", sender := .user },
         { id := 4, text := demoReplyText, sender := .bot }] ∧
    (fireTimer (handleSendMessage (setDraft "Hello" initChatState))).pending = [] :=
  submit_completed_appends_two (setDraft "Hello" initChatState) (by decide) (by decide)

/-- Claim C6, counterexample: no two scheduled replies can ever carry
different texts — the reply is not selected at random from a set with more
than one element; exactly one reply text is possible. -/
theorem demo_reply_not_random_cex :
    ¬ ∃ m n : Nat, (botReplyOf m).text ≠ (botReplyOf n).text :=
  fun ⟨_, _, h⟩ => h rfl

/-- Claim C6, amended: the demo completion provider always returns the
single fixed reply text "Thanks for your message! This is a demo
response.", after an artificial delay of 1000 ms (about one second). -/
theorem demo_reply_constant (n : Nat) :
    (botReplyOf n).text = demoReplyText ∧
    demoReplyText = "Thanks for your message! This is a demo response." ∧
    chatReplyDelayMs = 1000 :=
  ⟨rfl, rfl, rfl⟩

/-- Claim C9: when the draft is empty or whitespace-only (trims to the
empty string), `handleSendMessage` is a no-op — the state is unchanged, so
zero entries are appended and no reply is scheduled (no provider call). -/
theorem blank_submit_noop (s : ChatState) (h : jsTrim s.message = "") :
    handleSendMessage s = s := by
  simp [handleSendMessage, h]

/-- Witness for `blank_submit_noop` at the whitespace-only draft "   ". -/
theorem blank_submit_noop_witness :
    handleSendMessage (setDraft "   " initChatState) = setDraft "   " initChatState :=
  blank_submit_noop (setDraft "   " initChatState) (by decide)

/-- Claim C10: the transcript starts with the two hard-coded placeholder
entries (id 1, the assistant greeting, and id 2, the user "Hi!"); the
first entry appended by a submit therefore receives id 3; and in every
reachable state the transcript still begins with the assistant greeting,
never with a user-submitted entry. -/
theorem initial_transcript_seed (t : String) (ht : jsTrim t ≠ "")
    (s : ChatState) (hs : ChatReachable s) :
    initChatState.messages =
      [greetingMsg, { id := 2, text := "Hi!", sender := .user }] ∧
    (handleSendMessage (setDraft t initChatState)).messages.map Msg.id = [1, 2, 3] ∧
    s.messages.head? = some greetingMsg := by
  refine ⟨rfl, ?_, ?_⟩
  · simp [handleSendMessage, setDraft, ht, initChatState, greetingMsg]
  · exact chatReachable_head s hs

/-- Witness for `initial_transcript_seed` at the draft "Hello" and the
initial state. -/
theorem initial_transcript_seed_witness :
    initChatState.messages =
      [greetingMsg, { id := 2, text := "Hi!", sender := .user }] ∧
    (handleSendMessage (setDraft "Hello" initChatState)).messages.map Msg.id = [1, 2, 3] ∧
    initChatState.messages.head? = some greetingMsg :=
  initial_transcript_seed "Hello" (by decide) initChatState ChatReachable.init

/-- Claim C2, counterexample: select a valid PDF, run one conversion to
completion (the result reference is populated), then start a second
conversion — at its suspension point the job is converting and the prior
result reference is still observable, so starting a new conversion does
not discard the prior job's result reference. -/
theorem result_ref_visible_while_converting_cex :
    ((handleConvertBegin (handleConvert (handleFileChange initConverterState (some pdfFile))).fst).fst.isConverting = true) ∧
    ((handleConvertBegin (handleConvert (handleFileChange initConverterState (some pdfFile))).fst).fst.audioUrl = some demoAudioUrl) := by
  decide

/-- Claim C2, amended: a completed conversion populates the result
reference, but starting a new conversion leaves any prior result
reference untouched — it stays observable while the job is converting and
is cleared only by `handleCancel` (it is absent in the initial state). -/
theorem convert_preserves_prior_result (s : ConverterState) :
    (handleConvertBegin s).fst.audioUrl = s.audioUrl ∧
    (handleConvertComplete s).audioUrl = some demoAudioUrl ∧
    (handleConvertComplete s).isAudioReady = true := by
  refine ⟨?_, rfl, rfl⟩
  cases hsf : s.selectedFile <;> simp [handleConvertBegin, hsf]

/-- Claim C7: selecting a file whose declared media type is not
`application/pdf` leaves no pending source file stored, and a subsequent
convert makes no provider call, reports the select-a-file-first message,
and does not change the converting flag. -/
theorem invalid_file_blocks_convert (s : ConverterState) (f : File)
    (h : f.type ≠ "application/pdf") :
    (handleFileChange s (some f)).selectedFile = none ∧
    (handleConvert (handleFileChange s (some f))).snd = [] ∧
    (handleConvert (handleFileChange s (some f))).fst.conversionStatus =
      "Please select a PDF file first." ∧
    (handleConvert (handleFileChange s (some f))).fst.isConverting = s.isConverting := by
  simp [handleFileChange, h, handleConvert, handleConvertBegin]

/-- Witness for `invalid_file_blocks_convert` at a PNG file from the
initial converter state. -/
theorem invalid_file_blocks_convert_witness :
    (handleFileChange initConverterState (some pngFile)).selectedFile = none ∧
    (handleConvert (handleFileChange initConverterState (some pngFile))).snd = [] ∧
    (handleConvert (handleFileChange initConverterState (some pngFile))).fst.conversionStatus =
      "Please select a PDF file first." ∧
    (handleConvert (handleFileChange initConverterState (some pngFile))).fst.isConverting =
      initConverterState.isConverting :=
  invalid_file_blocks_convert initConverterState pngFile (by decide)

/-- Claim C8: from every prior state, `handleCancel` synchronously resets
the job to the initial idle state — no selected file, no audio result, the
waiting status — and makes no provider call. -/
theorem cancel_resets_job (s : ConverterState) :
    (handleCancel s).fst = initConverterState ∧ (handleCancel s).snd = [] :=
  ⟨rfl, rfl⟩
